import Mathlib

/-!
Verification development for the service-watchdog supervisor.

The definitions below are a shallow embedding of the Python sources
`src/service_watchdog/watchdog.py` and `src/service_watchdog/monitor.py`.
Conventions of the embedding:

- wall-clock timestamps (Python floats from `time.time()`) are modelled as `Nat`;
  durations from the configuration are `int` in the source already;
- Python `Optional[X]` becomes `Option X`; the Python truthiness test `if x:`
  on an optional number or string is false both for `None` and for `0.0` / `""`,
  which `optNatTruthy` / `optStrTruthy` reproduce;
- in-place mutation of dataclass instances becomes functional record update,
  threaded through `let` bindings in source order;
- the environment a probe touches (HTTP endpoint, TCP port, pid file, process
  table) is a `ProbeEnv` value; the controller outcome of `restart()` is the
  pair of arguments `rOk : Bool`, `rMsg : String`;
- a Python exception that escapes a function uncaught is an `Except.error`
  result (`PyError`); `_check_pid_file` and hence `check` are fallible this
  way, the other probe methods are total;
- the two `time.time()` calls inside one `attempt_restart` invocation are
  modelled as the same instant `now`.
-/

/-- Python truthiness of an `Optional[float]` timestamp: `None` and `0.0` are falsy. -/
def optNatTruthy : Option Nat → Bool
  | none => false
  | some t => t != 0

/-- Python truthiness of an `Optional[str]`: `None` and `""` are falsy. -/
def optStrTruthy : Option String → Bool
  | none => false
  | some s => s != ""

/-- The slice of `ServiceConfig` (config.py, lines 12-52) that the supervisor,
scheduler and prober consume.  Defaults mirror the dataclass defaults. -/
structure ServiceConfig where
  name : String
  enabled : Bool := true
  process_name : Option String := none
  pid_file : Option String := none
  port : Option Nat := none
  health_url : Option String := none
  health_timeout : Nat := 10
  restart_delay : Nat := 60
  max_restarts : Nat := 3
  restart_window : Nat := 3600
  check_interval : Nat := 30
  failure_threshold : Nat := 2
  deriving DecidableEq, Repr

/-- `ServiceStatus` (monitor.py, lines 17-33).  Float-valued metrics are
modelled as `Nat` values; the claims never inspect their magnitude. -/
structure ServiceStatus where
  name : String
  running : Bool
  pid : Option Nat := none
  cpu_percent : Option Nat := none
  memory_mb : Option Nat := none
  uptime_seconds : Option Nat := none
  check_method : String := "unknown"
  error : Option String := none
  deriving DecidableEq, Repr

/-- `ServiceStatus.healthy` (monitor.py, lines 30-33):
`self.running and self.error is None`. -/
def ServiceStatus.healthy (s : ServiceStatus) : Bool :=
  s.running && s.error.isNone

/-- One entry of the host process table as psutil exposes it to the monitor;
`accessible = false` models a `NoSuchProcess` / `AccessDenied` race on access. -/
structure ProcEntry where
  pid : Nat
  name : String
  cpu_percent : Option Nat := none
  memory_mb : Option Nat := none
  create_time : Option Nat := none
  accessible : Bool := true
  deriving DecidableEq, Repr

/-- Outcome of the HTTP GET in `_check_health_url`. -/
inductive HealthResult where
  | response (status_code : Nat)
  | timeout
  | requestError (msg : String)
  deriving DecidableEq, Repr

/-- Outcome of `sock.connect_ex` in `_check_port`. -/
inductive PortConnectResult where
  | connected
  | refused
  | socketError (msg : String)
  deriving DecidableEq, Repr

/-- A Python exception escaping the prober.  The `try` of `_check_pid_file`
(monitor.py, lines 99-113) catches only `ValueError` and
`psutil.NoSuchProcess`: a `PermissionError` / `FileNotFoundError` / other
`OSError` raised by `pid_path.read_text()` on an existing file, and a
`psutil.AccessDenied` raised by `proc.cpu_percent()` / `memory_info()` /
`create_time()`, propagate out of `check()` uncaught. -/
inductive PyError where
  | osError (msg : String)
  | accessDenied
  deriving DecidableEq, Repr

/-- Equality of fallible probe results is decidable. -/
instance instDecEqExcept {ε α : Type} [DecidableEq ε] [DecidableEq α] :
    DecidableEq (Except ε α) := fun a b =>
  match a, b with
  | Except.error e1, Except.error e2 =>
    if h : e1 = e2 then isTrue (by rw [h])
    else isFalse (by intro hc; injection hc; contradiction)
  | Except.ok s1, Except.ok s2 =>
    if h : s1 = s2 then isTrue (by rw [h])
    else isFalse (by intro hc; injection hc; contradiction)
  | Except.error _, Except.ok _ => isFalse (by intro hc; exact Except.noConfusion hc)
  | Except.ok _, Except.error _ => isFalse (by intro hc; exact Except.noConfusion hc)

/-- What reading and parsing the pid file yields in `_check_pid_file`:
`missing` is `pid_path.exists()` false; `readError` is an existing file
whose `read_text()` raises (uncaught); `unparsable` is a `ValueError` from
`int(...)` (caught); `pid` is a parsed integer. -/
inductive PidFileContent where
  | missing
  | readError (msg : String)
  | unparsable
  | pid (p : Nat)
  deriving DecidableEq, Repr

/-- What resolving the parsed pid through psutil yields in
`_check_pid_file`: `info` is a successful `psutil.Process(pid)` plus metric
calls; `noSuchProcess` is `psutil.Process` raising `NoSuchProcess` (caught);
`accessDenied` is a metric call raising `psutil.AccessDenied` (uncaught). -/
inductive PidProcessResult where
  | info (e : ProcEntry)
  | noSuchProcess
  | accessDenied
  deriving DecidableEq, Repr

/-- The environment one probe interacts with: HTTP endpoint, TCP port,
pid file, process table, and the clock used for uptime computation. -/
structure ProbeEnv where
  health : HealthResult := HealthResult.requestError "unreachable"
  portConnect : PortConnectResult := PortConnectResult.refused
  portProcess : Option ProcEntry := none
  pidFile : PidFileContent := PidFileContent.missing
  pidExists : Bool := false
  pidProcess : PidProcessResult := PidProcessResult.noSuchProcess
  procTable : List ProcEntry := []
  now : Nat := 0
  deriving DecidableEq, Repr

/-- The `psutil.process_iter` loop of `_check_process_name`: the first
accessible entry whose name equals the configured process name; entries that
raise on access are skipped by the `except ... continue`. -/
def findProcess (pname : String) : List ProcEntry → Option ProcEntry
  | [] => none
  | e :: rest => if e.accessible && e.name == pname then some e else findProcess pname rest

/-- `ServiceMonitor._check_health_url` (monitor.py, lines 153-170). -/
def ServiceMonitor.check_health_url (cfg : ServiceConfig) (env : ProbeEnv)
    (st : ServiceStatus) : ServiceStatus :=
  let st := { st with check_method := "health_url" }
  match env.health with
  | HealthResult.response code =>
    let st := { st with running := decide (code < 500) }
    if !st.running then
      { st with error := some s!"Health check returned {code}" }
    else st
  | HealthResult.timeout =>
    let t := cfg.health_timeout
    { st with error := some s!"Health check timed out after {t}s" }
  | HealthResult.requestError m =>
    { st with error := some ("Health check failed: " ++ m) }

/-- `ServiceMonitor._check_port` (monitor.py, lines 117-151).  A process that
cannot be resolved for the listening port (`AccessDenied`) is `portProcess = none`. -/
def ServiceMonitor.check_port (cfg : ServiceConfig) (env : ProbeEnv)
    (st : ServiceStatus) : ServiceStatus :=
  let st := { st with check_method := "port" }
  let p := cfg.port.getD 0
  let st :=
    match env.portConnect with
    | PortConnectResult.connected => { st with running := true }
    | PortConnectResult.refused =>
      { st with running := false, error := some s!"Port {p} not listening" }
    | PortConnectResult.socketError m =>
      { st with error := some ("Socket error: " ++ m) }
  if st.running then
    match env.portProcess with
    | some e =>
      { st with pid := some e.pid, cpu_percent := e.cpu_percent, memory_mb := e.memory_mb }
    | none => st
  else st

/-- `ServiceMonitor._check_pid_file` (monitor.py, lines 90-115).  The method
is fallible: a `readError` from `read_text()` and an `accessDenied` from the
metric calls escape its `except` clauses, so the result is an `Except`; an
escaping exception discards the partially mutated status object.  The source
assigns `uptime_seconds = proc.create_time()` (not `now - create_time`); the
embedding keeps that behaviour. -/
def ServiceMonitor.check_pid_file (cfg : ServiceConfig) (env : ProbeEnv)
    (st : ServiceStatus) : Except PyError ServiceStatus :=
  let st := { st with check_method := "pid_file" }
  let path := cfg.pid_file.getD ""
  match env.pidFile with
  | PidFileContent.missing =>
    Except.ok { st with error := some s!"PID file not found: {path}" }
  | PidFileContent.readError m => Except.error (PyError.osError m)
  | PidFileContent.unparsable =>
    Except.ok { st with error := some s!"Invalid PID file: {path}" }
  | PidFileContent.pid p =>
    if env.pidExists then
      match env.pidProcess with
      | PidProcessResult.info e =>
        Except.ok { st with running := true, pid := some p, cpu_percent := e.cpu_percent,
                            memory_mb := e.memory_mb, uptime_seconds := e.create_time }
      | PidProcessResult.noSuchProcess =>
        Except.ok { st with error := some s!"Process {p} not found" }
      | PidProcessResult.accessDenied => Except.error PyError.accessDenied
    else Except.ok { st with error := some s!"PID {p} not running (stale PID file)" }

/-- `ServiceMonitor._check_process_name` (monitor.py, lines 69-88).  A scan
that finds no matching process returns the status unchanged apart from
`check_method`: neither `running` nor `error` is assigned. -/
def ServiceMonitor.check_process_name (cfg : ServiceConfig) (env : ProbeEnv)
    (st : ServiceStatus) : ServiceStatus :=
  let st := { st with check_method := "process_name" }
  match findProcess (cfg.process_name.getD "") env.procTable with
  | some e =>
    { st with running := true, pid := some e.pid, cpu_percent := e.cpu_percent,
              memory_mb := e.memory_mb,
              uptime_seconds :=
                match e.create_time with
                | some ct => some (env.now - ct)
                | none => st.uptime_seconds }
  | none => st

/-- `ServiceMonitor.check` (monitor.py, lines 42-67): methods are tried in
preference order on one mutable status value, returning on the first that
reports `running`; earlier assignments (notably `error`) persist.  `check`
has no `try` of its own, so an exception escaping `_check_pid_file`
propagates to the caller: the result is an `Except`. -/
def ServiceMonitor.check (cfg : ServiceConfig) (env : ProbeEnv) :
    Except PyError ServiceStatus :=
  let st0 : ServiceStatus := { name := cfg.name, running := false }
  let st1 := if optStrTruthy cfg.health_url
             then ServiceMonitor.check_health_url cfg env st0 else st0
  if st1.running then Except.ok st1 else
  let st2 := if optNatTruthy cfg.port
             then ServiceMonitor.check_port cfg env st1 else st1
  if st2.running then Except.ok st2 else
  match (if optStrTruthy cfg.pid_file
         then ServiceMonitor.check_pid_file cfg env st2 else Except.ok st2) with
  | Except.error e => Except.error e
  | Except.ok st3 =>
    if st3.running then Except.ok st3 else
    Except.ok (if optStrTruthy cfg.process_name
               then ServiceMonitor.check_process_name cfg env st3 else st3)

/-- `ServiceState` (watchdog.py, lines 23-34): per-service runtime state,
with the dataclass defaults. -/
structure ServiceState where
  name : String
  consecutive_failures : Nat := 0
  restart_count : Nat := 0
  restart_window_start : Option Nat := none
  last_check : Option Nat := none
  last_status : Option ServiceStatus := none
  pending_restart_at : Option Nat := none
  alerted : Bool := false
  deriving DecidableEq, Repr

/-- `ServiceState(name=name)` as created in `__init__` and `run_once`. -/
def ServiceState.init (name : String) : ServiceState := { name := name }

/-- The four event kinds of `NotificationEvent` (notifiers.py). -/
inductive EventType where
  | failure
  | recovery
  | restart
  | restart_failed
  deriving DecidableEq, Repr

/-- A `NotificationEvent` as the supervisor constructs it: kind, service
name, human message, optional status snapshot. -/
structure Event where
  event_type : EventType
  service_name : String
  message : String
  status : Option ServiceStatus := none
  deriving DecidableEq, Repr

/-- The FAILURE event built in `handle_failure` (watchdog.py, lines 215-221);
`n` is the post-increment failure count. -/
def failureEvent (cfg : ServiceConfig) (obs : ServiceStatus) (n : Nat) : Event :=
  let d := cfg.restart_delay
  { event_type := EventType.failure, service_name := cfg.name,
    message := s!"Service has failed {n} consecutive checks.\nWill attempt restart in {d} seconds.",
    status := some obs }

/-- The RECOVERY event built in `handle_recovery` (watchdog.py, lines 240-245). -/
def recoveryEvent (cfg : ServiceConfig) (obs : ServiceStatus) : Event :=
  { event_type := EventType.recovery, service_name := cfg.name,
    message := "Service is now running normally.",
    status := some obs }

/-- The RESTART_FAILED event of the rate-limit branch (watchdog.py, lines 273-278). -/
def exceededEvent (cfg : ServiceConfig) : Event :=
  let m := cfg.max_restarts
  { event_type := EventType.restart_failed, service_name := cfg.name,
    message := s!"Exceeded maximum restart attempts ({m}). Manual intervention required." }

/-- The RESTART event of a successful attempt (watchdog.py, lines 291-296);
`n` is the post-increment restart count. -/
def restartOkEvent (cfg : ServiceConfig) (n : Nat) : Event :=
  { event_type := EventType.restart, service_name := cfg.name,
    message := s!"Service restarted successfully.\nRestart #{n} within current window." }

/-- The RESTART_FAILED event of a failed attempt (watchdog.py, lines 299-304). -/
def restartFailedEvent (cfg : ServiceConfig) (rMsg : String) (n : Nat) : Event :=
  let m := cfg.max_restarts
  { event_type := EventType.restart_failed, service_name := cfg.name,
    message := s!"Restart attempt failed: {rMsg}\nAttempt #{n} of {m}." }

/-- `ServiceWatchdog.check_service` (watchdog.py, lines 189-199), restricted
to its effect on the service's state: record the probe time and outcome. -/
def ServiceWatchdog.check_service (now : Nat) (obs : ServiceStatus)
    (s : ServiceState) : ServiceState :=
  { s with last_check := some now, last_status := some obs }

/-- `ServiceWatchdog.handle_failure` (watchdog.py, lines 201-230).  In-place
mutation is threaded through `s1`, `s2`, `s3` in source order. -/
def ServiceWatchdog.handle_failure (cfg : ServiceConfig) (now : Nat)
    (obs : ServiceStatus) (s : ServiceState) : ServiceState × List Event :=
  let s1 := { s with consecutive_failures := s.consecutive_failures + 1 }
  if cfg.failure_threshold ≤ s1.consecutive_failures then
    let r2 :=
      if !s1.alerted then
        ({ s1 with alerted := true }, [failureEvent cfg obs s1.consecutive_failures])
      else (s1, ([] : List Event))
    let s2 := r2.1
    let s3 :=
      if s2.pending_restart_at.isNone then
        { s2 with pending_restart_at := some (now + cfg.restart_delay) }
      else s2
    (s3, r2.2)
  else (s1, [])

/-- `ServiceWatchdog.handle_recovery` (watchdog.py, lines 232-251). -/
def ServiceWatchdog.handle_recovery (cfg : ServiceConfig) (obs : ServiceStatus)
    (s : ServiceState) : ServiceState × List Event :=
  let evs :=
    if 0 < s.consecutive_failures || s.alerted then [recoveryEvent cfg obs]
    else ([] : List Event)
  ({ s with consecutive_failures := 0, alerted := false, pending_restart_at := none }, evs)

/-- The probe-processing part of one `run_once` iteration (watchdog.py,
lines 332-338): `check_service` followed by the healthy/unhealthy dispatch. -/
def ServiceWatchdog.handle_observation (cfg : ServiceConfig) (now : Nat)
    (obs : ServiceStatus) (s : ServiceState) : ServiceState × List Event :=
  let s := ServiceWatchdog.check_service now obs s
  if obs.healthy then ServiceWatchdog.handle_recovery cfg obs s
  else ServiceWatchdog.handle_failure cfg now obs s

/-- Window maintenance at the head of `attempt_restart` (watchdog.py,
lines 258-265). -/
def ServiceWatchdog.windowMaintain (cfg : ServiceConfig) (now : Nat)
    (s : ServiceState) : ServiceState :=
  match s.restart_window_start with
  | none => { s with restart_window_start := some now, restart_count := 0 }
  | some ws =>
    if cfg.restart_window < now - ws then
      { s with restart_window_start := some now, restart_count := 0 }
    else s

/-- `ServiceWatchdog.attempt_restart` (watchdog.py, lines 253-308).  The
controller outcome `controller.restart()` is the parameter pair
`(rOk, rMsg)`; the third component of the result records whether
`controller.restart()` was invoked. -/
def ServiceWatchdog.attempt_restart (cfg : ServiceConfig) (now : Nat)
    (rOk : Bool) (rMsg : String) (s : ServiceState) :
    ServiceState × List Event × Bool :=
  let s := ServiceWatchdog.windowMaintain cfg now s
  if cfg.max_restarts ≤ s.restart_count then
    ({ s with pending_restart_at := none }, [exceededEvent cfg], false)
  else
    let s := { s with restart_count := s.restart_count + 1, pending_restart_at := none }
    if rOk then
      (s, [restartOkEvent cfg s.restart_count], true)
    else
      ({ s with pending_restart_at := some (now + cfg.restart_delay) },
       [restartFailedEvent cfg rMsg s.restart_count], true)

/-- Which of the three paths the scheduler took for one service in one tick. -/
inductive TickAction where
  | restarted
  | skippedInterval
  | probed
  deriving DecidableEq, Repr

/-- The body of the `run_once` loop for one enabled service (watchdog.py,
lines 321-338).  The restart-due test is the Python truthiness conjunction
`state.pending_restart_at and time.time() >= state.pending_restart_at`; the
interval test is `if state.last_check:` followed by
`elapsed < check_interval`. -/
def ServiceWatchdog.run_once_service (cfg : ServiceConfig) (now : Nat)
    (obs : ServiceStatus) (rOk : Bool) (rMsg : String) (s : ServiceState) :
    ServiceState × List Event × TickAction :=
  if optNatTruthy s.pending_restart_at && (s.pending_restart_at.getD 0 ≤ now) then
    let r := ServiceWatchdog.attempt_restart cfg now rOk rMsg s
    (r.1, r.2.1, TickAction.restarted)
  else if optNatTruthy s.last_check && (now - s.last_check.getD 0 < cfg.check_interval) then
    (s, [], TickAction.skippedInterval)
  else
    let r := ServiceWatchdog.handle_observation cfg now obs s
    (r.1, r.2, TickAction.probed)

/-- Feeding a trace of timed observations to the supervisor for one service:
the per-step post-state and emitted events (watchdog.py, lines 332-338,
iterated). -/
def runTrace (cfg : ServiceConfig) (s : ServiceState) :
    List (Nat × ServiceStatus) → List (ServiceState × List Event)
  | [] => []
  | (now, obs) :: rest =>
    let r := ServiceWatchdog.handle_observation cfg now obs s
    (r.1, r.2) :: runTrace cfg r.1 rest

/-- Number of FAILURE events in a trace log. -/
def countFailures (log : List (ServiceState × List Event)) : Nat :=
  (log.map (fun p => p.2.countP (fun e => e.event_type == EventType.failure))).sum

/-- States of one service reachable from a fresh `ServiceState` by the
supervisor's operations: processing an observation (`run_once` probe path),
firing the restart-due trigger, and the `check_service` touch done by
`status()`. -/
inductive Reachable (cfg : ServiceConfig) : ServiceState → Prop where
  | init : Reachable cfg (ServiceState.init cfg.name)
  | obs (now : Nat) (o : ServiceStatus) {s : ServiceState} :
      Reachable cfg s →
      Reachable cfg (ServiceWatchdog.handle_observation cfg now o s).1
  | restartDue (now : Nat) (rOk : Bool) (rMsg : String) {s : ServiceState} :
      Reachable cfg s →
      Reachable cfg (ServiceWatchdog.attempt_restart cfg now rOk rMsg s).1
  | statusTouch (now : Nat) (o : ServiceStatus) {s : ServiceState} :
      Reachable cfg s →
      Reachable cfg (ServiceWatchdog.check_service now o s)

/-- `WatchdogState` (watchdog.py, lines 37-42): the persistent daemon state.
The Python dict `services` is modelled as an association list in insertion
order. -/
structure WatchdogState where
  started_at : Nat
  services : List (String × ServiceState) := []
  deriving DecidableEq, Repr

/-- The per-service dictionary written by `WatchdogState.to_dict`
(watchdog.py, lines 49-56).  Every field is `Option` because `from_dict`
reads each key with `.get` and a default; `to_dict` always emits `some`.
`name` and `last_status` have no key in the dictionary. -/
structure SvcDict where
  consecutive_failures : Option Nat := none
  restart_count : Option Nat := none
  restart_window_start : Option Nat := none
  last_check : Option Nat := none
  pending_restart_at : Option Nat := none
  alerted : Option Bool := none
  deriving DecidableEq, Repr

/-- The top-level dictionary of `WatchdogState.to_dict` (watchdog.py,
lines 44-59). -/
structure StateDict where
  started_at : Option Nat := none
  services : List (String × SvcDict) := []
  deriving DecidableEq, Repr

/-- `WatchdogState.to_dict` (watchdog.py, lines 44-59). -/
def WatchdogState.to_dict (st : WatchdogState) : StateDict :=
  { started_at := some st.started_at,
    services := st.services.map (fun e =>
      (e.1,
       { consecutive_failures := some e.2.consecutive_failures,
         restart_count := some e.2.restart_count,
         restart_window_start := e.2.restart_window_start,
         last_check := e.2.last_check,
         pending_restart_at := e.2.pending_restart_at,
         alerted := some e.2.alerted })) }

/-- `WatchdogState.from_dict` (watchdog.py, lines 61-75).  `defaultNow`
models the `time.time()` default used when `started_at` is absent. -/
def WatchdogState.from_dict (defaultNow : Nat) (d : StateDict) : WatchdogState :=
  { started_at := d.started_at.getD defaultNow,
    services := d.services.map (fun e =>
      (e.1,
       { name := e.1,
         consecutive_failures := e.2.consecutive_failures.getD 0,
         restart_count := e.2.restart_count.getD 0,
         restart_window_start := e.2.restart_window_start,
         last_check := e.2.last_check,
         last_status := none,
         pending_restart_at := e.2.pending_restart_at,
         alerted := e.2.alerted.getD false })) }

/-- What round-tripping through the state store's dictionary form does to one
service entry: the in-memory-only `last_status` is dropped and the `name`
field is rebuilt from the dictionary key. -/
def clearTransient (key : String) (s : ServiceState) : ServiceState :=
  { s with name := key, last_status := none }

/-- An abstract file-system operation, for the state store's write path. -/
inductive FsOp where
  | openTrunc (path : String)
  | writeAll (path : String) (data : String)
  | rename (src : String) (dst : String)
  deriving DecidableEq, Repr

/-- The sequence of file-system operations `ServiceWatchdog._save_state`
performs (watchdog.py, lines 142-153): `open(state_path, "w")` truncates the
state file in place, then `json.dump` writes the serialized payload to it.
No temporary file and no rename occur. -/
def ServiceWatchdog.save_state_ops (state_file : String) (payload : String) : List FsOp :=
  [FsOp.openTrunc state_file, FsOp.writeAll state_file payload]

/-- File-system contents as an association list path ↦ content. -/
def setFile (fs : List (String × String)) (p v : String) : List (String × String) :=
  if fs.any (fun e => e.1 == p) then
    fs.map (fun e => if e.1 == p then (p, v) else e)
  else fs ++ [(p, v)]

/-- Look up a file's content. -/
def getFile (fs : List (String × String)) (p : String) : Option String :=
  (fs.find? (fun e => e.1 == p)).map (fun e => e.2)

/-- Apply one file-system operation. -/
def applyOp (fs : List (String × String)) : FsOp → List (String × String)
  | FsOp.openTrunc p => setFile fs p ""
  | FsOp.writeAll p d => setFile fs p d
  | FsOp.rename src dst =>
    match getFile fs src with
    | some v => setFile (fs.filter (fun e => e.1 != src)) dst v
    | none => fs

/-- Run a prefix of the operation sequence: the state of the file system if
the process crashes after the first `k` operations. -/
def crashAfter (fs : List (String × String)) (ops : List FsOp) (k : Nat) :
    List (String × String) :=
  (ops.take k).foldl applyOp fs

/-- Modelled from the spec: "write to temp file in the same directory, then
rename" — an operation sequence has atomic-replace semantics for `target`
when the target file is only ever touched by renaming some other file over
it, never by opening or writing it directly. -/
def isAtomicReplace (target : String) (ops : List FsOp) : Bool :=
  ops.any (fun op =>
    match op with
    | FsOp.rename src dst => dst == target && src != target
    | _ => false)
  && ops.all (fun op =>
    match op with
    | FsOp.openTrunc p => p != target
    | FsOp.writeAll p _ => p != target
    | FsOp.rename _ _ => true)

/-! Concrete instances used by the witness and counterexample theorems. -/

/-- A service using the default thresholds (failure_threshold 2). -/
def cfgC1w : ServiceConfig := { name := "a" }

/-- An unhealthy observation: not running. -/
def obsC1w : ServiceStatus := { name := "a", running := false }

/-- Two consecutive unhealthy probes at times 1 and 2. -/
def trC1w : List (Nat × ServiceStatus) := [(1, obsC1w), (2, obsC1w)]

/-- The second step of `runTrace cfgC1w (ServiceState.init "a") trC1w`: the
state after the second failure together with the FAILURE event it emits. -/
def pC1w : ServiceState × List Event :=
  ({ name := "a", consecutive_failures := 2, restart_count := 0, restart_window_start := none,
     last_check := some 2, last_status := some obsC1w, pending_restart_at := some 62,
     alerted := true },
   [failureEvent cfgC1w obsC1w 2])

/-- A config whose restart budget is exhausted immediately. -/
def cfgC2w : ServiceConfig := { name := "a", max_restarts := 0 }

/-- A state inside an open restart window, reachable via one rate-limited
restart-due trigger at time 10. -/
def sC2w : ServiceState := { name := "a", restart_window_start := some 10 }

/-- A config with the default restart budget. -/
def cfgC3w : ServiceConfig := { name := "a" }

/-- A config for the recovery-edge witness. -/
def cfgC4w : ServiceConfig := { name := "a" }

/-- A healthy observation. -/
def obsC4w : ServiceStatus := { name := "a", running := true }

/-- A mid-outage state: elevated counter, alerted, restart pending. -/
def sC4w : ServiceState := { name := "a", consecutive_failures := 3, alerted := true,
                             pending_restart_at := some 90, restart_count := 1,
                             restart_window_start := some 5 }

/-- A config for the restart-before-probe theorems. -/
def cfgC5w : ServiceConfig := { name := "a" }

/-- A state whose scheduled restart at time 62 is due. -/
def sC5w : ServiceState :=
  { name := "a", consecutive_failures := 2, alerted := true, pending_restart_at := some 62 }

/-- An unhealthy observation for the scheduler theorems. -/
def obsC5w : ServiceStatus := { name := "a", running := false, error := some "down" }

/-- A state whose pending restart timestamp is exactly 0: it is set (not
`None`), but Python truthiness treats `0.0` as false. -/
def sC5x : ServiceState :=
  { name := "svc", consecutive_failures := 2, alerted := true, pending_restart_at := some 0 }

/-- A config for the truthiness counterexample. -/
def cfgC5x : ServiceConfig := { name := "svc" }

/-- An unhealthy observation for the truthiness counterexample. -/
def obsC5x : ServiceStatus := { name := "svc", running := false, error := some "down" }

/-- A spec configured with every probe method. -/
def cfgC7w : ServiceConfig :=
  { name := "svc", health_url := some "http://localhost/health", port := some 80,
    pid_file := some "/run/svc.pid", process_name := some "svc" }

/-- An environment in which every probe method fails. -/
def envC7w : ProbeEnv := { health := HealthResult.timeout }

/-- A fresh not-running status, as `check` builds before trying methods. -/
def stC7w : ServiceStatus := { name := "svc", running := false }

/-- A spec whose only detection method is a process-name scan. -/
def cfgC7x : ServiceConfig := { name := "svc", process_name := some "nginx" }

/-- An environment whose process table has no matching entry. -/
def envC7x : ProbeEnv := {}

/-- A spec whose only detection method is a pid file. -/
def cfgC7y : ServiceConfig := { name := "svc", pid_file := some "/run/svc.pid" }

/-- An environment where the pid file exists but cannot be read:
`read_text()` raises `PermissionError`, caught by no `except` clause. -/
def envC7y : ProbeEnv := { pidFile := PidFileContent.readError "Permission denied" }

/-- An environment where the pid file parses and the pid exists, but a
psutil metric call raises `AccessDenied`, caught by no `except` clause. -/
def envC7z : ProbeEnv :=
  { pidFile := PidFileContent.pid 42, pidExists := true,
    pidProcess := PidProcessResult.accessDenied }

/-- The Observation the pid_file method returns on a missing pid file in
`envC7w`: running false with the explanatory error text. -/
def stC7pid : ServiceStatus :=
  { stC7w with
    check_method := "pid_file",
    error := some "PID file not found: /run/svc.pid" }

/-- A watchdog state whose service carries an in-memory `last_status`. -/
def stC8x : WatchdogState :=
  { started_at := 7,
    services := [("a", { name := "a", consecutive_failures := 3,
                         last_status := some { name := "a", running := true } })] }

/-- A spec with both a health URL and a TCP port configured. -/
def cfgC9 : ServiceConfig :=
  { name := "web", health_url := some "http://localhost:8080/health", port := some 8080 }

/-- An environment where the HTTP health check fails at transport level but
the TCP port accepts connections. -/
def envC9 : ProbeEnv :=
  { health := HealthResult.requestError "connection refused",
    portConnect := PortConnectResult.connected }

/-- The observation `check cfgC9 envC9` returns: running via the port probe,
with the health check's error text still attached. -/
def obsC9res : ServiceStatus :=
  { name := "web", running := true, check_method := "port",
    error := some "Health check failed: connection refused" }

/-- A config for the status-frame witness. -/
def cfgC10w : ServiceConfig := { name := "a" }

/-- A running observation for the status-frame witness. -/
def obsC10w : ServiceStatus := { name := "a", running := true }

/-- A state with one recorded failure. -/
def sC10w : ServiceState := { name := "a", consecutive_failures := 1 }

/-! Helper lemmas. -/

/-- A string with a non-empty left part is non-empty. -/
theorem append_ne_empty_of_left (a b : String) (h : a ≠ "") : a ++ b ≠ "" := by
  intro hc
  apply h
  have hd := congrArg String.data hc
  simp only [String.data_append] at hd
  rw [List.append_eq_nil] at hd
  cases a
  simp_all

/-- `handle_failure` increments the consecutive-failure counter by one. -/
theorem hf_cf (cfg : ServiceConfig) (now : Nat) (obs : ServiceStatus) (s : ServiceState) :
    (ServiceWatchdog.handle_failure cfg now obs s).1.consecutive_failures =
      s.consecutive_failures + 1 := by
  simp only [ServiceWatchdog.handle_failure]
  split
  · split <;> simp <;> split <;> simp
  · simp

/-- `handle_failure` sets `alerted` exactly when the threshold is crossed. -/
theorem hf_alerted (cfg : ServiceConfig) (now : Nat) (obs : ServiceStatus) (s : ServiceState) :
    (ServiceWatchdog.handle_failure cfg now obs s).1.alerted =
      (s.alerted || decide (cfg.failure_threshold ≤ s.consecutive_failures + 1)) := by
  simp only [ServiceWatchdog.handle_failure]
  split
  · rename_i h
    split <;> rename_i h2 <;> simp_all <;> split <;> simp
  · rename_i h
    simp_all

/-- `handle_failure` emits a FAILURE event exactly when the incremented
counter reaches the threshold and the service was not yet alerted. -/
theorem hf_events (cfg : ServiceConfig) (now : Nat) (obs : ServiceStatus) (s : ServiceState) :
    (ServiceWatchdog.handle_failure cfg now obs s).2 =
      (if decide (cfg.failure_threshold ≤ s.consecutive_failures + 1) && !s.alerted then
        [failureEvent cfg obs (s.consecutive_failures + 1)] else []) := by
  simp only [ServiceWatchdog.handle_failure]
  split <;> rename_i h
  · split <;> rename_i h2 <;> simp_all
  · simp_all

/-- `handle_failure` never touches the restart counter. -/
theorem hf_restart_count (cfg : ServiceConfig) (now : Nat) (obs : ServiceStatus)
    (s : ServiceState) :
    (ServiceWatchdog.handle_failure cfg now obs s).1.restart_count = s.restart_count := by
  simp only [ServiceWatchdog.handle_failure]
  split
  · split <;> simp <;> split <;> simp
  · simp

/-- A FAILURE event in one observation step implies the post-state counter
has reached the threshold. -/
theorem ho_events_failure (cfg : ServiceConfig) (now : Nat) (obs : ServiceStatus)
    (s : ServiceState) :
    ∀ e ∈ (ServiceWatchdog.handle_observation cfg now obs s).2,
      e.event_type = EventType.failure →
      cfg.failure_threshold ≤
        (ServiceWatchdog.handle_observation cfg now obs s).1.consecutive_failures := by
  intro e he hfev
  simp only [ServiceWatchdog.handle_observation, ServiceWatchdog.check_service] at he ⊢
  by_cases h : obs.healthy
  · simp only [h, if_pos] at he ⊢
    simp only [ServiceWatchdog.handle_recovery] at he
    split at he <;> simp_all [recoveryEvent]
  · simp only [h] at he ⊢
    simp only [Bool.false_eq_true, if_false] at he ⊢
    rw [hf_events] at he
    rw [hf_cf]
    split at he
    · rename_i hcond
      simp at hcond
      simpa using hcond.1
    · simp at he

/-- `alerted` after an unhealthy observation step. -/
theorem ho_alerted_unhealthy (cfg : ServiceConfig) (now : Nat) (obs : ServiceStatus)
    (s : ServiceState) (h : obs.healthy = false) :
    (ServiceWatchdog.handle_observation cfg now obs s).1.alerted =
      (s.alerted || decide (cfg.failure_threshold ≤ s.consecutive_failures + 1)) := by
  simp only [ServiceWatchdog.handle_observation, ServiceWatchdog.check_service, h,
    Bool.false_eq_true, if_false]
  exact hf_alerted cfg now obs _

/-- Events of an unhealthy observation step. -/
theorem ho_events_unhealthy (cfg : ServiceConfig) (now : Nat) (obs : ServiceStatus)
    (s : ServiceState) (h : obs.healthy = false) :
    (ServiceWatchdog.handle_observation cfg now obs s).2 =
      (if decide (cfg.failure_threshold ≤ s.consecutive_failures + 1) && !s.alerted then
        [failureEvent cfg obs (s.consecutive_failures + 1)] else []) := by
  simp only [ServiceWatchdog.handle_observation, ServiceWatchdog.check_service, h,
    Bool.false_eq_true, if_false]
  exact hf_events cfg now obs _

/-- An observation step never touches the restart counter. -/
theorem ho_restart_count (cfg : ServiceConfig) (now : Nat) (obs : ServiceStatus)
    (s : ServiceState) :
    (ServiceWatchdog.handle_observation cfg now obs s).1.restart_count = s.restart_count := by
  simp only [ServiceWatchdog.handle_observation, ServiceWatchdog.check_service]
  by_cases h : obs.healthy
  · simp [h, ServiceWatchdog.handle_recovery]
  · simp only [h, Bool.false_eq_true, if_false]
    exact hf_restart_count cfg now obs _

/-- Over an all-unhealthy trace, at most one FAILURE event is emitted, and
none at all when the outage was already alerted. -/
theorem trace_failure_bound (cfg : ServiceConfig) :
    ∀ (trace : List (Nat × ServiceStatus)) (s : ServiceState),
      (∀ q ∈ trace, q.2.healthy = false) →
      countFailures (runTrace cfg s trace) ≤ 1 ∧
      (s.alerted = true → countFailures (runTrace cfg s trace) = 0) := by
  intro trace
  induction trace with
  | nil => intro s _; simp [runTrace, countFailures]
  | cons q rest ih =>
    intro s hall
    have hq : q.2.healthy = false := hall q (List.mem_cons_self q rest)
    have hrest : ∀ r ∈ rest, r.2.healthy = false := fun r hr => hall r (List.mem_cons_of_mem q hr)
    obtain ⟨now, obs⟩ := q
    simp only [runTrace, countFailures, List.map_cons, List.sum_cons]
    have hev := ho_events_unhealthy cfg now obs s hq
    have hal := ho_alerted_unhealthy cfg now obs s hq
    have ihr := ih (ServiceWatchdog.handle_observation cfg now obs s).1 hrest
    simp only [countFailures] at ihr
    by_cases ha : s.alerted
    · have h0 : (ServiceWatchdog.handle_observation cfg now obs s).2 = [] := by
        rw [hev]; simp [ha]
      have hpa : (ServiceWatchdog.handle_observation cfg now obs s).1.alerted = true := by
        rw [hal]; simp [ha]
      rw [h0]
      simp only [List.countP_nil, Nat.zero_add]
      exact ⟨ihr.1, fun _ => ihr.2 hpa⟩
    · simp only [Bool.not_eq_true] at ha
      by_cases hth : cfg.failure_threshold ≤ s.consecutive_failures + 1
      · have h1 : (ServiceWatchdog.handle_observation cfg now obs s).2 =
            [failureEvent cfg obs (s.consecutive_failures + 1)] := by
          rw [hev]; simp [ha, hth]
        have hpa : (ServiceWatchdog.handle_observation cfg now obs s).1.alerted = true := by
          rw [hal]; simp [hth]
        rw [h1, ihr.2 hpa]
        simp [failureEvent, ha]
      · have h0 : (ServiceWatchdog.handle_observation cfg now obs s).2 = [] := by
          rw [hev]; simp [hth]
        rw [h0]
        simp only [List.countP_nil, Nat.zero_add]
        refine ⟨ihr.1, fun hc => ?_⟩
        rw [ha] at hc; cases hc

/-- Any FAILURE event along a trace is emitted at a step whose post-state
counter has reached the threshold. -/
theorem trace_debounce (cfg : ServiceConfig) :
    ∀ (trace : List (Nat × ServiceStatus)) (s : ServiceState),
      ∀ p ∈ runTrace cfg s trace, ∀ e ∈ p.2, e.event_type = EventType.failure →
        cfg.failure_threshold ≤ p.1.consecutive_failures := by
  intro trace
  induction trace with
  | nil => intro s p hp; simp [runTrace] at hp
  | cons q rest ih =>
    intro s p hp e he hfev
    obtain ⟨now, obs⟩ := q
    simp only [runTrace, List.mem_cons] at hp
    rcases hp with hp | hp
    · subst hp
      exact ho_events_failure cfg now obs s e he hfev
    · exact ih _ p hp e he hfev

/-- Window maintenance either resets the restart counter or leaves it as it was. -/
theorem wm_count (cfg : ServiceConfig) (now : Nat) (s : ServiceState) :
    (ServiceWatchdog.windowMaintain cfg now s).restart_count = 0 ∨
    (ServiceWatchdog.windowMaintain cfg now s).restart_count = s.restart_count := by
  unfold ServiceWatchdog.windowMaintain
  cases h : s.restart_window_start with
  | none => exact Or.inl rfl
  | some ws =>
    by_cases hc : cfg.restart_window < now - ws
    · simp [hc]
    · simp [hc]

/-- One restart-due trigger preserves the restart-count ceiling. -/
theorem ar_count_le (cfg : ServiceConfig) (now : Nat) (rOk : Bool) (rMsg : String)
    (s : ServiceState) (h : s.restart_count ≤ cfg.max_restarts) :
    (ServiceWatchdog.attempt_restart cfg now rOk rMsg s).1.restart_count ≤
      cfg.max_restarts := by
  have hwm := wm_count cfg now s
  simp only [ServiceWatchdog.attempt_restart]
  split
  · rename_i hge
    rcases hwm with h0 | hs
    · simp [h0]
    · simpa [hs] using h
  · rename_i hlt
    rw [Nat.not_le] at hlt
    cases rOk <;> simpa using hlt

/-- The restart-count ceiling holds in every reachable state. -/
theorem reachable_count_le (cfg : ServiceConfig) (s : ServiceState) (h : Reachable cfg s) :
    s.restart_count ≤ cfg.max_restarts := by
  induction h with
  | init => exact Nat.zero_le _
  | obs now o hr ih => rw [ho_restart_count]; exact ih
  | restartDue now rOk rMsg hr ih => exact ar_count_le cfg now rOk rMsg _ ih
  | statusTouch now o hr ih => simpa [ServiceWatchdog.check_service] using ih

/-- The rate-limit branch of `attempt_restart`, in full. -/
theorem ar_rate_limit (cfg : ServiceConfig) (now : Nat) (rOk : Bool) (rMsg : String)
    (s : ServiceState)
    (h : cfg.max_restarts ≤ (ServiceWatchdog.windowMaintain cfg now s).restart_count) :
    ServiceWatchdog.attempt_restart cfg now rOk rMsg s =
      ({ ServiceWatchdog.windowMaintain cfg now s with pending_restart_at := none },
       [exceededEvent cfg], false) := by
  simp only [ServiceWatchdog.attempt_restart]
  rw [if_pos h]

/-- While the window has not rolled and the counter is at the ceiling, the
controller is not invoked. -/
theorem ar_no_invoke_before_roll (cfg : ServiceConfig) (now : Nat) (rOk : Bool) (rMsg : String)
    (s : ServiceState) (ws : Nat)
    (hws : s.restart_window_start = some ws) (hno : now - ws ≤ cfg.restart_window)
    (hmax : cfg.max_restarts ≤ s.restart_count) :
    (ServiceWatchdog.attempt_restart cfg now rOk rMsg s).2.2 = false := by
  have hwm : ServiceWatchdog.windowMaintain cfg now s = s := by
    simp [ServiceWatchdog.windowMaintain, hws, Nat.not_lt.mpr hno]
  rw [ar_rate_limit cfg now rOk rMsg s (by rw [hwm]; exact hmax)]

/-! Claim theorems. -/

/-- Claim C1: for every trace of observations fed to the supervisor for one
service, no FAILURE event is emitted while `consecutive_failures` is below
`failure_threshold` (every FAILURE is emitted at a step whose post-state
counter has reached the threshold), and within one outage — a contiguous run
of unhealthy observations entered with `alerted = false`, as after a healthy
observation or at start — at most one FAILURE event is emitted, the
`alerted` flag being the guard. -/
theorem C1_failure_debounce_single_edge (cfg : ServiceConfig) (s0 : ServiceState)
    (trace : List (Nat × ServiceStatus)) :
    (∀ p ∈ runTrace cfg s0 trace, ∀ e ∈ p.2, e.event_type = EventType.failure →
        cfg.failure_threshold ≤ p.1.consecutive_failures)
  ∧ (s0.alerted = false → (∀ q ∈ trace, q.2.healthy = false) →
        countFailures (runTrace cfg s0 trace) ≤ 1) :=
  ⟨trace_debounce cfg trace s0,
   fun _ hall => (trace_failure_bound cfg trace s0 hall).1⟩

/-- Witness for C1: two consecutive unhealthy probes under the default
threshold 2 emit the FAILURE event exactly at the second step, where the
counter is 2, and the whole outage emits at most one FAILURE. -/
theorem C1_failure_debounce_single_edge_witness :
    cfgC1w.failure_threshold ≤ pC1w.1.consecutive_failures
  ∧ countFailures (runTrace cfgC1w (ServiceState.init "a") trC1w) ≤ 1 := by
  have h := C1_failure_debounce_single_edge cfgC1w (ServiceState.init "a") trC1w
  exact ⟨h.1 pC1w (by decide) (failureEvent cfgC1w obsC1w 2) (by decide) (by decide),
         h.2 (by decide) (by decide)⟩

/-- Claim C2: in every reachable service state,
`0 ≤ restart_count ≤ max_restarts`; when the restart-due trigger fires with
`restart_count ≥ max_restarts` after window maintenance, the supervisor
emits the RESTART_FAILED "exceeded maximum restart attempts" event, clears
`pending_restart_at` and does not invoke `controller.restart()`; and no
invocation happens at the ceiling until the window has rolled
(`now - restart_window_start > restart_window`). -/
theorem C2_restart_count_invariant_rate_limit (cfg : ServiceConfig) (s : ServiceState) :
    (Reachable cfg s → 0 ≤ s.restart_count ∧ s.restart_count ≤ cfg.max_restarts)
  ∧ (∀ now rOk rMsg,
      cfg.max_restarts ≤ (ServiceWatchdog.windowMaintain cfg now s).restart_count →
      ServiceWatchdog.attempt_restart cfg now rOk rMsg s =
        ({ ServiceWatchdog.windowMaintain cfg now s with pending_restart_at := none },
         [exceededEvent cfg], false))
  ∧ (∀ now rOk rMsg ws, s.restart_window_start = some ws →
      now - ws ≤ cfg.restart_window → cfg.max_restarts ≤ s.restart_count →
      (ServiceWatchdog.attempt_restart cfg now rOk rMsg s).2.2 = false) := by
  refine ⟨fun hr => ⟨Nat.zero_le _, reachable_count_le cfg s hr⟩, ?_, ?_⟩
  · intro now rOk rMsg h
    exact ar_rate_limit cfg now rOk rMsg s h
  · intro now rOk rMsg ws hws hno hmax
    exact ar_no_invoke_before_roll cfg now rOk rMsg s ws hws hno hmax

/-- Witness for C2: with `max_restarts = 0`, the reachable state `sC2w`
(obtained by one rate-limited trigger at time 10) satisfies the ceiling, and
a trigger at time 15 — inside the un-rolled window — takes the rate-limit
branch without invoking the controller. -/
theorem C2_restart_count_invariant_rate_limit_witness :
    sC2w.restart_count ≤ cfgC2w.max_restarts
  ∧ ServiceWatchdog.attempt_restart cfgC2w 15 true "ok" sC2w =
      ({ ServiceWatchdog.windowMaintain cfgC2w 15 sC2w with pending_restart_at := none },
       [exceededEvent cfgC2w], false)
  ∧ (ServiceWatchdog.attempt_restart cfgC2w 15 true "ok" sC2w).2.2 = false := by
  have h := C2_restart_count_invariant_rate_limit cfgC2w sC2w
  have hreach : Reachable cfgC2w sC2w := by
    have h0 : Reachable cfgC2w (ServiceState.init cfgC2w.name) := Reachable.init
    have h1 := Reachable.restartDue 10 true "ok" h0
    have heq : (ServiceWatchdog.attempt_restart cfgC2w 10 true "ok"
        (ServiceState.init cfgC2w.name)).1 = sC2w := by decide
    rwa [heq] at h1
  exact ⟨(h.1 hreach).2, h.2.1 15 true "ok" (by decide),
         h.2.2 15 true "ok" 10 (by decide) (by decide) (by decide)⟩

/-- Claim C3: when the restart-due trigger actually attempts a restart (the
rate limit is not hit after window maintenance), the controller is invoked
and, regardless of the `(ok, message)` outcome, `restart_count` is
incremented by one over its post-maintenance value and `pending_restart_at`
is cleared; on failure a RESTART_FAILED event is emitted and
`pending_restart_at` is re-set to `now + restart_delay`, on success a
RESTART event is emitted with `pending_restart_at` left cleared. -/
theorem C3_restart_attempt_effects (cfg : ServiceConfig) (now : Nat) (rOk : Bool)
    (rMsg : String) (s : ServiceState)
    (h : (ServiceWatchdog.windowMaintain cfg now s).restart_count < cfg.max_restarts) :
    (ServiceWatchdog.attempt_restart cfg now rOk rMsg s).2.2 = true
  ∧ (ServiceWatchdog.attempt_restart cfg now rOk rMsg s).1.restart_count =
      (ServiceWatchdog.windowMaintain cfg now s).restart_count + 1
  ∧ (rOk = true →
      (ServiceWatchdog.attempt_restart cfg now rOk rMsg s).1.pending_restart_at = none ∧
      (ServiceWatchdog.attempt_restart cfg now rOk rMsg s).2.1 =
        [restartOkEvent cfg ((ServiceWatchdog.windowMaintain cfg now s).restart_count + 1)])
  ∧ (rOk = false →
      (ServiceWatchdog.attempt_restart cfg now rOk rMsg s).1.pending_restart_at =
        some (now + cfg.restart_delay) ∧
      (ServiceWatchdog.attempt_restart cfg now rOk rMsg s).2.1 =
        [restartFailedEvent cfg rMsg
          ((ServiceWatchdog.windowMaintain cfg now s).restart_count + 1)]) := by
  simp only [ServiceWatchdog.attempt_restart]
  rw [if_neg (Nat.not_le.mpr h)]
  cases rOk <;> simp

/-- Witness for C3: from a fresh state under the default budget, a
successful attempt leaves no pending restart, while a failed attempt
reschedules at `now + restart_delay`. -/
theorem C3_restart_attempt_effects_witness :
    (ServiceWatchdog.attempt_restart cfgC3w 0 true "Restart successful"
      (ServiceState.init "a")).2.2 = true
  ∧ (ServiceWatchdog.attempt_restart cfgC3w 0 true "Restart successful"
      (ServiceState.init "a")).1.pending_restart_at = none
  ∧ (ServiceWatchdog.attempt_restart cfgC3w 0 false "Restart failed: boom"
      (ServiceState.init "a")).1.pending_restart_at = some (0 + cfgC3w.restart_delay) := by
  have ht := C3_restart_attempt_effects cfgC3w 0 true "Restart successful"
    (ServiceState.init "a") (by decide)
  have hfl := C3_restart_attempt_effects cfgC3w 0 false "Restart failed: boom"
    (ServiceState.init "a") (by decide)
  exact ⟨ht.1, (ht.2.2.1 rfl).1, (hfl.2.2.2 rfl).1⟩

/-- Claim C4: on every healthy observation the supervisor emits a RECOVERY
event if and only if `consecutive_failures > 0` or `alerted`; it then resets
`consecutive_failures` to 0, `alerted` to false and `pending_restart_at` to
absent, while leaving `restart_window_start` and `restart_count` unchanged. -/
theorem C4_recovery_edge_frame (cfg : ServiceConfig) (now : Nat) (obs : ServiceStatus)
    (s : ServiceState) (h : obs.healthy = true) :
    (ServiceWatchdog.handle_observation cfg now obs s).2 =
      (if 0 < s.consecutive_failures || s.alerted then [recoveryEvent cfg obs] else [])
  ∧ (ServiceWatchdog.handle_observation cfg now obs s).1.consecutive_failures = 0
  ∧ (ServiceWatchdog.handle_observation cfg now obs s).1.alerted = false
  ∧ (ServiceWatchdog.handle_observation cfg now obs s).1.pending_restart_at = none
  ∧ (ServiceWatchdog.handle_observation cfg now obs s).1.restart_window_start =
      s.restart_window_start
  ∧ (ServiceWatchdog.handle_observation cfg now obs s).1.restart_count = s.restart_count := by
  simp [ServiceWatchdog.handle_observation, ServiceWatchdog.check_service, h,
    ServiceWatchdog.handle_recovery]

/-- Witness for C4: a healthy observation in mid-outage emits exactly one
RECOVERY event and keeps the restart counter. -/
theorem C4_recovery_edge_frame_witness :
    (ServiceWatchdog.handle_observation cfgC4w 100 obsC4w sC4w).2 =
      (if 0 < sC4w.consecutive_failures || sC4w.alerted then [recoveryEvent cfgC4w obsC4w]
       else [])
  ∧ (ServiceWatchdog.handle_observation cfgC4w 100 obsC4w sC4w).1.restart_count =
      sC4w.restart_count := by
  have h := C4_recovery_edge_frame cfgC4w 100 obsC4w sC4w (by decide)
  exact ⟨h.1, h.2.2.2.2.2⟩

/-- Counterexample to claim C5 as stated: in state `sC5x` the pending
restart timestamp is set (`some 0`) and due (`0 ≤ 5`), yet the tick takes
the probe path, not the restart path — the probe runs (`last_check` is
updated).  The scheduler's guard is the Python truthiness test
`if state.pending_restart_at and time.time() >= state.pending_restart_at:`,
which treats the set timestamp `0.0` like `None`. -/
theorem C5_counterexample_zero_timestamp :
    sC5x.pending_restart_at = some 0 ∧ (0 : Nat) ≤ 5
  ∧ (ServiceWatchdog.run_once_service cfgC5x 5 obsC5x true "ok" sC5x).2.2 = TickAction.probed
  ∧ (ServiceWatchdog.run_once_service cfgC5x 5 obsC5x true "ok" sC5x).1.last_check =
      some 5 := by
  decide

/-- Claim C5 (amended): in every scheduler tick, for each enabled service,
if `pending_restart_at` is set to a nonzero timestamp `t` and `now ≥ t`,
the restart path executes and no probe occurs for that service in that
tick; the restart path thus runs before any probe path for a service whose
restart is due. -/
theorem C5_restart_path_before_probe (cfg : ServiceConfig) (now : Nat) (obs : ServiceStatus)
    (rOk : Bool) (rMsg : String) (s : ServiceState) (t : Nat)
    (h1 : s.pending_restart_at = some t) (h2 : t ≠ 0) (h3 : t ≤ now) :
    ServiceWatchdog.run_once_service cfg now obs rOk rMsg s =
      ((ServiceWatchdog.attempt_restart cfg now rOk rMsg s).1,
       (ServiceWatchdog.attempt_restart cfg now rOk rMsg s).2.1,
       TickAction.restarted) := by
  simp [ServiceWatchdog.run_once_service, h1, optNatTruthy, h2, h3]

/-- Witness for C5 (amended): a restart scheduled for time 62 fires at tick
time 70 and the whole tick for this service is the restart-due trigger. -/
theorem C5_restart_path_before_probe_witness :
    ServiceWatchdog.run_once_service cfgC5w 70 obsC5w true "ok" sC5w =
      ((ServiceWatchdog.attempt_restart cfgC5w 70 true "ok" sC5w).1,
       (ServiceWatchdog.attempt_restart cfgC5w 70 true "ok" sC5w).2.1,
       TickAction.restarted) :=
  C5_restart_path_before_probe cfgC5w 70 obsC5w true "ok" sC5w 62 (by decide) (by decide)
    (by decide)

/-- Claim C6 evaluated against the code: `_save_state` is not an
atomic-replace write.  Its operation sequence opens the state file itself
with truncation and writes to it directly — there is no temp file and no
rename — and a crash after the truncating open (prefix of length 1) leaves
the state file empty, destroying the prior snapshot. -/
theorem C6_save_state_not_atomic :
    isAtomicReplace "/var/lib/service-watchdog/state.json"
      (ServiceWatchdog.save_state_ops "/var/lib/service-watchdog/state.json"
        "new-snapshot") = false
  ∧ crashAfter [("/var/lib/service-watchdog/state.json", "prior-snapshot")]
      (ServiceWatchdog.save_state_ops "/var/lib/service-watchdog/state.json"
        "new-snapshot") 1 =
      [("/var/lib/service-watchdog/state.json", "")] := by
  decide

/-- Counterexample to claim C7 as stated, on both counts.  First, with a
process-name-only spec and no matching process, `check` returns a failing
observation whose `error_text` is absent — the process_name scan, unlike the
other three methods, sets no explanatory error.  Second, the prober can
throw: with a pid-file-only spec and an existing-but-unreadable pid file,
the `PermissionError` from `read_text()` escapes `_check_pid_file`'s
`except` clauses (which catch only `ValueError` and `psutil.NoSuchProcess`)
and propagates out of `check()`, so no Observation is produced at all. -/
theorem C7_counterexample_no_error_text_and_throws :
    ServiceMonitor.check cfgC7x envC7x =
      Except.ok { name := "svc", running := false, check_method := "process_name",
                  error := none }
  ∧ ServiceMonitor.check cfgC7y envC7y =
      Except.error (PyError.osError "Permission denied") := by
  decide

/-- Claim C7 (amended): for every service spec, probe environment and
incoming status, a failing health_url or port method yields `running =
false` with a non-empty explanatory `error_text`, and so does the pid_file
method on every error its `except` clauses catch (missing file, unparseable
content, stale pid, vanished process); but the prober is not exception-free:
a read error on an existing pid file (`PermissionError` / `OSError` from
`read_text()`) and a `psutil.AccessDenied` from the metric calls escape
`_check_pid_file` uncaught instead of becoming an Observation; and the
process_name scan is the other exception to the claim: when it finds no
matching process it returns the status unchanged apart from `check_method`,
so `error_text` stays absent when no earlier method set it. -/
theorem C7_probe_failures_set_error_except_process_name (cfg : ServiceConfig)
    (env : ProbeEnv) (st : ServiceStatus) :
    ((ServiceMonitor.check_health_url cfg env st).running = false →
       (ServiceMonitor.check_health_url cfg env st).error.isSome = true ∧
       (ServiceMonitor.check_health_url cfg env st).error ≠ some "")
  ∧ ((ServiceMonitor.check_port cfg env st).running = false →
       (ServiceMonitor.check_port cfg env st).error.isSome = true ∧
       (ServiceMonitor.check_port cfg env st).error ≠ some "")
  ∧ (∀ st2, ServiceMonitor.check_pid_file cfg env st = Except.ok st2 →
       st2.running = false → st2.error.isSome = true ∧ st2.error ≠ some "")
  ∧ (∀ m, env.pidFile = PidFileContent.readError m →
       ServiceMonitor.check_pid_file cfg env st = Except.error (PyError.osError m))
  ∧ (∀ p, env.pidFile = PidFileContent.pid p → env.pidExists = true →
       env.pidProcess = PidProcessResult.accessDenied →
       ServiceMonitor.check_pid_file cfg env st = Except.error PyError.accessDenied)
  ∧ (findProcess (cfg.process_name.getD "") env.procTable = none →
       ServiceMonitor.check_process_name cfg env st =
         { st with check_method := "process_name" }) := by
  refine ⟨?_, ?_, ?_, ?_, ?_, ?_⟩
  · cases henv : env.health with
    | response code =>
      simp only [ServiceMonitor.check_health_url, henv]
      split
      · intro _
        refine ⟨rfl, ?_⟩
        simp only [ne_eq, Option.some.injEq]
        apply append_ne_empty_of_left
        apply append_ne_empty_of_left
        decide
      · rename_i hr
        intro hc
        simp_all
    | timeout =>
      simp only [ServiceMonitor.check_health_url, henv]
      intro _
      refine ⟨rfl, ?_⟩
      simp only [ne_eq, Option.some.injEq]
      apply append_ne_empty_of_left
      apply append_ne_empty_of_left
      decide
    | requestError m =>
      simp only [ServiceMonitor.check_health_url, henv]
      intro _
      refine ⟨rfl, ?_⟩
      simp only [ne_eq, Option.some.injEq]
      apply append_ne_empty_of_left
      decide
  · cases henv : env.portConnect with
    | connected =>
      simp only [ServiceMonitor.check_port, henv]
      intro hc
      cases hpp : env.portProcess <;> simp_all
    | refused =>
      simp only [ServiceMonitor.check_port, henv, Bool.false_eq_true, if_false]
      intro _
      refine ⟨rfl, ?_⟩
      simp only [ne_eq, Option.some.injEq]
      apply append_ne_empty_of_left
      apply append_ne_empty_of_left
      decide
    | socketError m =>
      simp only [ServiceMonitor.check_port, henv]
      split
      · intro hc
        cases hpp : env.portProcess <;> simp_all
      · intro hc
        refine ⟨rfl, ?_⟩
        simp only [ne_eq, Option.some.injEq]
        apply append_ne_empty_of_left
        decide
  · intro st2 hok hrun
    cases henv : env.pidFile with
    | missing =>
      simp only [ServiceMonitor.check_pid_file, henv] at hok
      injection hok with h2
      subst h2
      refine ⟨rfl, ?_⟩
      simp only [ne_eq, Option.some.injEq]
      apply append_ne_empty_of_left
      apply append_ne_empty_of_left
      decide
    | readError m =>
      simp only [ServiceMonitor.check_pid_file, henv] at hok
      exact Except.noConfusion hok
    | unparsable =>
      simp only [ServiceMonitor.check_pid_file, henv] at hok
      injection hok with h2
      subst h2
      refine ⟨rfl, ?_⟩
      simp only [ne_eq, Option.some.injEq]
      apply append_ne_empty_of_left
      apply append_ne_empty_of_left
      decide
    | pid p =>
      simp only [ServiceMonitor.check_pid_file, henv] at hok
      split at hok
      · cases hpp : env.pidProcess with
        | info e =>
          rw [hpp] at hok
          injection hok with h2
          subst h2
          simp at hrun
        | noSuchProcess =>
          rw [hpp] at hok
          injection hok with h2
          subst h2
          refine ⟨rfl, ?_⟩
          simp only [ne_eq, Option.some.injEq]
          apply append_ne_empty_of_left
          apply append_ne_empty_of_left
          decide
        | accessDenied =>
          rw [hpp] at hok
          exact Except.noConfusion hok
      · injection hok with h2
        subst h2
        refine ⟨rfl, ?_⟩
        simp only [ne_eq, Option.some.injEq]
        apply append_ne_empty_of_left
        apply append_ne_empty_of_left
        decide
  · intro m hm
    simp only [ServiceMonitor.check_pid_file, hm]
  · intro p hp hex hacc
    simp [ServiceMonitor.check_pid_file, hp, hex, hacc]
  · intro hfind
    simp only [ServiceMonitor.check_process_name, hfind]

/-- Witness for C7 (amended): where every method fails benignly, the health
and port methods produce a non-empty error, the pid_file method returns a
missing-file Observation with a non-empty error, and the process-name scan
leaves the status unchanged apart from `check_method`; with an unreadable
pid file, and with an access-denied metric call, the pid_file method
raises instead of returning an Observation. -/
theorem C7_probe_failures_set_error_except_process_name_witness :
    (ServiceMonitor.check_health_url cfgC7w envC7w stC7w).error.isSome = true
  ∧ (ServiceMonitor.check_port cfgC7w envC7w stC7w).error ≠ some ""
  ∧ stC7pid.error.isSome = true
  ∧ ServiceMonitor.check_pid_file cfgC7y envC7y stC7w =
      Except.error (PyError.osError "Permission denied")
  ∧ ServiceMonitor.check_pid_file cfgC7y envC7z stC7w = Except.error PyError.accessDenied
  ∧ ServiceMonitor.check_process_name cfgC7w envC7w stC7w =
      { stC7w with check_method := "process_name" } := by
  have h := C7_probe_failures_set_error_except_process_name cfgC7w envC7w stC7w
  have hy := C7_probe_failures_set_error_except_process_name cfgC7y envC7y stC7w
  have hz := C7_probe_failures_set_error_except_process_name cfgC7y envC7z stC7w
  exact ⟨(h.1 (by decide)).1, (h.2.1 (by decide)).2,
         (h.2.2.1 stC7pid (by decide) (by decide)).1,
         hy.2.2.2.1 "Permission denied" (by decide),
         hz.2.2.2.2.1 42 (by decide) (by decide) (by decide),
         h.2.2.2.2.2 (by decide)⟩

/-- Counterexample to claim C8 as stated: a state whose service carries an
in-memory `last_status` does not round-trip to an equal state — `to_dict`
has no key for `last_status`, so `from_dict` rebuilds it as `none`. -/
theorem C8_counterexample_last_status_dropped :
    WatchdogState.from_dict 0 (WatchdogState.to_dict stC8x) ≠ stC8x := by
  decide

/-- Claim C8 (amended): round-tripping any `WatchdogState` through the state
store's dictionary form (`from_dict ∘ to_dict`) preserves `started_at` and
every persisted per-service field (`consecutive_failures`, `restart_count`,
`restart_window_start`, `last_check`, `pending_restart_at`, `alerted`);
each service's `name` is rebuilt from its dictionary key and the
non-persisted `last_status` is reset to absent.  Equality with the original
therefore holds exactly up to `clearTransient`. -/
theorem C8_roundtrip_modulo_transient (st : WatchdogState) :
    WatchdogState.from_dict 0 (WatchdogState.to_dict st) =
      { st with services := st.services.map (fun e => (e.1, clearTransient e.1 e.2)) } := by
  simp [WatchdogState.from_dict, WatchdogState.to_dict, clearTransient]

/-- Claim C9: with both a health URL and a TCP port configured, a transport
failure of the health check followed by a successful port probe yields an
observation with `running = true` but a carried-over non-empty `error`, so
its derived `healthy` property is false and the supervisor takes the failure
branch (the consecutive-failure counter rises). -/
theorem C9_stale_error_text_marks_unhealthy :
    ServiceMonitor.check cfgC9 envC9 = Except.ok obsC9res
  ∧ obsC9res.running = true
  ∧ obsC9res.error.isSome = true
  ∧ obsC9res.healthy = false
  ∧ (ServiceWatchdog.handle_observation cfgC9 100 obsC9res
       (ServiceState.init "web")).1.consecutive_failures = 1 := by
  decide

/-- Claim C10: `check_service` — the per-service effect of every `status()`
call — leaves `consecutive_failures`, `restart_count`, `alerted`,
`pending_restart_at` and `restart_window_start` unchanged, but records
`last_check = now` and `last_status`; consequently a `status()` call at time
`now` makes the scheduler skip the probe of that service at any tick less
than `check_interval` later (no pending restart due and `now` nonzero), so
the next scheduled probe can be postponed by up to `check_interval`. -/
theorem C10_status_frame_and_probe_postponed (cfg : ServiceConfig) (now : Nat)
    (obs : ServiceStatus) (s : ServiceState) :
    (ServiceWatchdog.check_service now obs s).consecutive_failures = s.consecutive_failures
  ∧ (ServiceWatchdog.check_service now obs s).restart_count = s.restart_count
  ∧ (ServiceWatchdog.check_service now obs s).alerted = s.alerted
  ∧ (ServiceWatchdog.check_service now obs s).pending_restart_at = s.pending_restart_at
  ∧ (ServiceWatchdog.check_service now obs s).restart_window_start = s.restart_window_start
  ∧ (ServiceWatchdog.check_service now obs s).last_check = some now
  ∧ (ServiceWatchdog.check_service now obs s).last_status = some obs
  ∧ (∀ now2 obs2 rOk rMsg, s.pending_restart_at = none → 0 < now → now ≤ now2 →
      now2 - now < cfg.check_interval →
      ServiceWatchdog.run_once_service cfg now2 obs2 rOk rMsg
        (ServiceWatchdog.check_service now obs s) =
        (ServiceWatchdog.check_service now obs s, [], TickAction.skippedInterval)) := by
  refine ⟨rfl, rfl, rfl, rfl, rfl, rfl, rfl, ?_⟩
  intro now2 obs2 rOk rMsg hp hpos hle hint
  have hnz : now ≠ 0 := Nat.pos_iff_ne_zero.mp hpos
  simp [ServiceWatchdog.run_once_service, ServiceWatchdog.check_service, hp, optNatTruthy,
    hint, hnz]

/-- Witness for C10: a status probe at time 100 keeps all supervisor
counters and makes the tick at time 110 (default interval 30) skip the
probe. -/
theorem C10_status_frame_and_probe_postponed_witness :
    (ServiceWatchdog.check_service 100 obsC10w sC10w).consecutive_failures =
      sC10w.consecutive_failures
  ∧ (ServiceWatchdog.check_service 100 obsC10w sC10w).last_check = some 100
  ∧ ServiceWatchdog.run_once_service cfgC10w 110 obsC10w true "ok"
      (ServiceWatchdog.check_service 100 obsC10w sC10w) =
      (ServiceWatchdog.check_service 100 obsC10w sC10w, [], TickAction.skippedInterval) := by
  have h := C10_status_frame_and_probe_postponed cfgC10w 100 obsC10w sC10w
  exact ⟨h.1, h.2.2.2.2.2.1,
         h.2.2.2.2.2.2.2 110 obsC10w true "ok" (by decide) (by decide) (by decide) (by decide)⟩
